import Mathlib

/-!
Shallow embedding of `explorer/src/service/chain.rs` from the
findora-scanner repository: the `statistics` and `staking_info`
aggregation endpoints, together with a model of the record store they
query. Machine integers are modelled as `Int` (i64) and `Nat` with
explicit reduction modulo `2 ^ 64` (u64, wrapping on overflow as in a
release build); `f64` values are modelled as exact rationals `ℚ`.
-/

set_option autoImplicit false

/-- Outcome of one sqlx query (`fetch_one` / `fetch_all`): a decoded
result, the `RowNotFound` error, or any other (fatal) store error. -/
inductive QueryResult (α : Type) where
  | ok : α → QueryResult α
  | rowNotFound : QueryResult α
  | fatal : QueryResult α
  deriving DecidableEq

/-- A stored JSON payload as seen by `serde_json::from_value::<α>`:
either it decodes to a value of the expected shape or it does not. -/
inductive JsonOf (α : Type) where
  | good : α → JsonOf α
  | bad : JsonOf α
  deriving DecidableEq

/-- `serde_json::from_value`: decoding a stored payload. -/
def from_value {α : Type} : JsonOf α → Option α
  | .good a => some a
  | .bad => none

/-- Mirrors `StatisticsData` (chain.rs lines 26-31): all three counters
are `i64`. -/
structure StatisticsData where
  active_addresses : Int
  total_txs : Int
  daily_txs : Int
  deriving DecidableEq

/-- Mirrors `ChainStatisticsRes` (chain.rs lines 19-24). -/
structure ChainStatisticsRes where
  code : Int
  message : String
  data : Option StatisticsData
  deriving DecidableEq

/-- Mirrors the `ChainStatisticsResponse` enum (chain.rs lines 13-17):
its single variant is annotated `#[oai(status = 200)]`. -/
inductive ChainStatisticsResponse where
  | Ok : ChainStatisticsRes → ChainStatisticsResponse
  deriving DecidableEq

/-- The transport-level HTTP status produced by poem-openapi for a
`ChainStatisticsResponse` value: the only variant declares status 200. -/
def ChainStatisticsResponse.httpStatus : ChainStatisticsResponse → Nat
  | .Ok _ => 200

/-- Mirrors `StakingData` (chain.rs lines 46-52): `block_reward` is u64,
`stake_ratio` and `apy` are f64 (modelled as `ℚ`). -/
structure StakingData where
  block_reward : Nat
  stake_ratio : ℚ
  apy : ℚ
  active_validators : List String
  deriving DecidableEq

/-- `StakingData::default()`: every numeric field zero, empty vector. -/
def StakingData.default : StakingData :=
  { block_reward := 0, stake_ratio := 0, apy := 0, active_validators := [] }

/-- Mirrors `StakingRes` (chain.rs lines 39-44). -/
structure StakingRes where
  code : Int
  message : String
  data : Option StakingData
  deriving DecidableEq

/-- Mirrors the `StakingResponse` enum (chain.rs lines 33-37): its single
variant is annotated `#[oai(status = 200)]`. -/
inductive StakingResponse where
  | Ok : StakingRes → StakingResponse
  deriving DecidableEq

/-- The transport-level HTTP status produced by poem-openapi for a
`StakingResponse` value: the only variant declares status 200. -/
def StakingResponse.httpStatus : StakingResponse → Nat
  | .Ok _ => 200

/-- Modelled from the spec: `DelegationRecord` from `module::schema`
(not part of the service source file): `rwd_amount` is an unsigned
64-bit integer and `delegations` maps each delegation target to an
unsigned 64-bit staked amount. Mappings are association lists whose
list order stands for the (arbitrary) iteration order of the map. -/
structure DelegationRecord where
  rwd_amount : Nat
  delegations : List (String × Nat)
  deriving DecidableEq

/-- Modelled from the spec: the `return_rate` component of
`module::schema::DelegationInfo`, a record with one float field. -/
structure ReturnRate where
  value : ℚ
  deriving DecidableEq

/-- Modelled from the spec: `module::schema::DelegationInfo` (not part
of the service source file): a validator map, a map of delegation
records keyed by delegator, and a return rate. Map keys are unique. -/
structure DelegationInfo where
  validator_addr_map : List (String × String)
  global_delegation_records_map : List (String × DelegationRecord)
  return_rate : ReturnRate
  deriving DecidableEq

/-- Wrapping 64-bit addition: `u64 + u64` in a release build. -/
def wadd64 (a b : Nat) : Nat := (a + b) % 2 ^ 64

/-- The zero-initialised `res_data` of `statistics` (chain.rs lines
57-61). -/
def zeroStatisticsData : StatisticsData :=
  { active_addresses := 0, total_txs := 0, daily_txs := 0 }

/-- The decode loop of `statistics` (chain.rs lines 97-101): each row's
`addr` fragment is decoded as a string with
`serde_json::from_value(value).unwrap()`; a fragment that fails to
decode panics, which the embedding renders as `none`. -/
def decodeAddrs : List (JsonOf String) → Option (List String)
  | [] => some []
  | v :: rest =>
    match from_value v with
    | none => none
    | some s =>
      match decodeAddrs rest with
      | none => none
      | some ss => some (s :: ss)

/-- Embedding of `statistics` (chain.rs lines 54-133) over the outcomes
of its three store sub-queries: total transaction count, address scan,
trailing-24h count. A fatal store error on any sub-query returns
`code = 50001` with the still-zero `res_data`; a `RowNotFound` outcome
falls through to `.unwrap()` on the error and panics (`none`), as does a
fragment that fails to decode. On success the three computed values are
written into `res_data` and returned with `code = 200`. -/
def statistics (totalRes : QueryResult Int)
    (addrRes : QueryResult (List (JsonOf String)))
    (dailyRes : QueryResult Int) : Option ChainStatisticsResponse :=
  match totalRes with
  | .fatal =>
    some (.Ok { code := 50001, message := "internal error, total txs.",
                data := some zeroStatisticsData })
  | .rowNotFound => none
  | .ok total_txs =>
    match addrRes with
    | .fatal =>
      some (.Ok { code := 50001, message := "internal error, total addresses.",
                  data := some zeroStatisticsData })
    | .rowNotFound => none
    | .ok vec =>
      match decodeAddrs vec with
      | none => none
      | some addrs =>
        let active_addresses : Int := addrs.dedup.length
        match dailyRes with
        | .fatal =>
          some (.Ok { code := 50001, message := "internal error, daily txs.",
                      data := some zeroStatisticsData })
        | .rowNotFound => none
        | .ok daily_txs =>
          some (.Ok { code := 200, message := "",
                      data := some { active_addresses := active_addresses,
                                     total_txs := total_txs,
                                     daily_txs := daily_txs } })

/-- The loop over `validator_addr_map` (chain.rs lines 162-165): push
every key. -/
def computeActiveValidators (m : List (String × String)) : List String :=
  m.map Prod.fst

/-- The `reward` accumulation of the loop over
`global_delegation_records_map` (chain.rs lines 166-173): wrapping u64
sum of `rwd_amount` in iteration order. -/
def computeReward (recs : List (String × DelegationRecord)) : Nat :=
  recs.foldl (fun r p => wadd64 r p.2.rwd_amount) 0

/-- The `total_stake` accumulation of the same loop (chain.rs lines
166-173): wrapping u64 sum of every staked amount of every record's
`delegations` mapping, in iteration order. -/
def computeTotalStake (recs : List (String × DelegationRecord)) : Nat :=
  recs.foldl (fun s p => p.2.delegations.foldl (fun s2 q => wadd64 s2 q.2) s) 0

/-- Embedding of `staking_info` (chain.rs lines 135-187) over the
outcome of its snapshot query. `RowNotFound` returns `code = 200` with
`StakingData::default()`; any other store error returns `code = 50001`
with no data; a payload that fails to decode panics at `.unwrap()`
(`none`). Otherwise the snapshot is reduced to reward, total stake,
ratio and validator keys. -/
def staking_info (delegationRes : QueryResult (JsonOf DelegationInfo)) :
    Option StakingResponse :=
  match delegationRes with
  | .rowNotFound =>
    some (.Ok { code := 200, message := "", data := some StakingData.default })
  | .fatal =>
    some (.Ok { code := 50001, message := "internal error.", data := none })
  | .ok info_value =>
    match from_value info_value with
    | none => none
    | some delegation_info =>
      let active_validators := computeActiveValidators delegation_info.validator_addr_map
      let reward := computeReward delegation_info.global_delegation_records_map
      let total_stake := computeTotalStake delegation_info.global_delegation_records_map
      some (.Ok { code := 200, message := "",
                  data := some { block_reward := reward,
                                 stake_ratio := (total_stake : ℚ) / 21420000000000000,
                                 apy := delegation_info.return_rate.value,
                                 active_validators := active_validators } })

/-- One stored transaction row as the two statistics queries see it: the
list of JSON string fragments matched under
`$.body.operations[*].TransferAsset.body.transfer.outputs[*].public_key`
and the row's timestamp in seconds (i64). -/
structure Tx where
  pubkeys : List String
  timestamp : Int
  deriving DecidableEq

/-- `SELECT COUNT(*) FROM transaction` against an honest store: one row
carrying the number of stored transactions. -/
def totalQuery (txs : List Tx) : QueryResult Int := .ok (txs.length : Int)

/-- The `jsonb_path_query` scan against an honest store: one row per
matched `public_key` fragment, across all transactions in store order. -/
def addrQuery (txs : List Tx) : QueryResult (List (JsonOf String)) :=
  .ok ((txs.flatMap Tx.pubkeys).map JsonOf.good)

/-- `SELECT COUNT(*) FROM transaction where timestamp>=$1` with
`$1 = now - 3600 * 24`, against an honest store. -/
def dailyQuery (txs : List Tx) (now : Int) : QueryResult Int :=
  .ok (((txs.filter fun tx => now - 3600 * 24 ≤ tx.timestamp).length : Int))

/-- `statistics` run against an honest store at clock reading `now`. -/
def statisticsOnStore (txs : List Tx) (now : Int) : Option ChainStatisticsResponse :=
  statistics (totalQuery txs) (addrQuery txs) (dailyQuery txs now)

/-- The delegations table: one `(height, info payload)` row per height. -/
def DelegationStore : Type := List (Int × JsonOf DelegationInfo)

/-- The row of `store` with the greatest height, mirroring
`ORDER BY height DESC LIMIT 1`. -/
def latestRow : List (Int × JsonOf DelegationInfo) → Option (Int × JsonOf DelegationInfo)
  | [] => none
  | e :: rest =>
    match latestRow rest with
    | none => some e
    | some m => if m.1 < e.1 then some e else some m

/-- The snapshot query of `staking_info` (chain.rs lines 138-143)
against an honest delegations table: with an explicit height,
`SELECT info FROM delegations WHERE height=h` via `fetch_one` (no row
means `RowNotFound`); without one, the row of maximum height. -/
def delegationQuery (store : List (Int × JsonOf DelegationInfo))
    (height : Option Int) : QueryResult (JsonOf DelegationInfo) :=
  match height with
  | some h =>
    match store.find? (fun e => e.1 == h) with
    | some e => .ok e.2
    | none => .rowNotFound
  | none =>
    match latestRow store with
    | some e => .ok e.2
    | none => .rowNotFound

/-- `staking_info` run against an honest delegations table. -/
def stakingInfoOnStore (store : List (Int × JsonOf DelegationInfo))
    (height : Option Int) : Option StakingResponse :=
  staking_info (delegationQuery store height)

/-! ### Helper lemmas -/

theorem decodeAddrs_map_good (l : List String) :
    decodeAddrs (l.map JsonOf.good) = some l := by
  induction l with
  | nil => rfl
  | cons s rest ih => simp [decodeAddrs, from_value, ih]

/-- Running `statistics` against an honest store always succeeds with
`code = 200` and the three aggregate values. -/
theorem statisticsOnStore_eq (txs : List Tx) (now : Int) :
    statisticsOnStore txs now =
      some (.Ok { code := 200, message := "",
                  data := some
                    { active_addresses := ((txs.flatMap Tx.pubkeys).dedup.length : Int),
                      total_txs := (txs.length : Int),
                      daily_txs := (((txs.filter fun tx =>
                        now - 3600 * 24 ≤ tx.timestamp).length : Int)) } }) := by
  simp [statisticsOnStore, statistics, totalQuery, addrQuery, dailyQuery,
    decodeAddrs_map_good]

theorem decodeAddrs_of_bad {vec : List (JsonOf String)}
    (hbad : JsonOf.bad ∈ vec) : decodeAddrs vec = none := by
  induction vec with
  | nil => cases hbad
  | cons v rest ih =>
    rcases List.mem_cons.mp hbad with hv | hv
    · rw [← hv]; rfl
    · cases v with
      | bad => rfl
      | good s => simp [decodeAddrs, from_value, ih hv]

theorem foldl_wadd64 (l : List Nat) :
    ∀ a : Nat, a < 2 ^ 64 → l.foldl wadd64 a = (a + l.sum) % 2 ^ 64 := by
  induction l with
  | nil =>
    intro a ha
    simp only [List.foldl_nil, List.sum_nil, Nat.add_zero]
    exact (Nat.mod_eq_of_lt ha).symm
  | cons x xs ih =>
    intro a ha
    have h1 : wadd64 a x < 2 ^ 64 := Nat.mod_lt _ (by norm_num)
    simp only [List.foldl_cons, List.sum_cons]
    rw [ih _ h1]
    show ((a + x) % 2 ^ 64 + xs.sum) % 2 ^ 64 = (a + (x + xs.sum)) % 2 ^ 64
    rw [Nat.mod_add_mod, Nat.add_assoc]

/-- `reward` is the plain sum of the `rwd_amount` fields reduced modulo
`2 ^ 64`. -/
theorem computeReward_eq (recs : List (String × DelegationRecord)) :
    computeReward recs =
      (recs.map fun p => p.2.rwd_amount).sum % 2 ^ 64 := by
  have h := foldl_wadd64 (recs.map fun p => p.2.rwd_amount) 0 (by norm_num)
  rw [List.foldl_map] at h
  simpa [computeReward] using h

/-- `total_stake` is the plain sum of every staked amount reduced modulo
`2 ^ 64`. -/
theorem computeTotalStake_eq (recs : List (String × DelegationRecord)) :
    computeTotalStake recs =
      (recs.map fun p => (p.2.delegations.map Prod.snd).sum).sum % 2 ^ 64 := by
  suffices h : ∀ s : Nat, s < 2 ^ 64 →
      recs.foldl (fun s2 p => p.2.delegations.foldl (fun s3 q => wadd64 s3 q.2) s2) s
        = (s + (recs.map fun p => (p.2.delegations.map Prod.snd).sum).sum) % 2 ^ 64 by
    simpa [computeTotalStake] using h 0 (by norm_num)
  induction recs with
  | nil =>
    intro s hs
    simp only [List.foldl_nil, List.map_nil, List.sum_nil, Nat.add_zero]
    exact (Nat.mod_eq_of_lt hs).symm
  | cons r rest ih =>
    intro s hs
    simp only [List.foldl_cons, List.map_cons, List.sum_cons]
    have hinner : r.2.delegations.foldl (fun s3 q => wadd64 s3 q.2) s
        = (s + (r.2.delegations.map Prod.snd).sum) % 2 ^ 64 := by
      have h := foldl_wadd64 (r.2.delegations.map Prod.snd) s hs
      rw [List.foldl_map] at h
      exact h
    rw [hinner, ih _ (Nat.mod_lt _ (by norm_num)), Nat.mod_add_mod, Nat.add_assoc]

theorem find?_key_eq {store : List (Int × JsonOf DelegationInfo)} {h : Int}
    {v : JsonOf DelegationInfo}
    (hnd : (store.map Prod.fst).Nodup) (hmem : (h, v) ∈ store) :
    store.find? (fun e => e.1 == h) = some (h, v) := by
  induction store with
  | nil => cases hmem
  | cons e rest ih =>
    simp only [List.map_cons, List.nodup_cons] at hnd
    rcases List.mem_cons.mp hmem with he | hrest
    · rw [← he]
      exact List.find?_cons_of_pos _ (by simp)
    · have hne : e.1 ≠ h := by
        intro heq
        exact hnd.1 (heq ▸ List.mem_map_of_mem Prod.fst hrest)
      rw [List.find?_cons_of_neg _ (by simp [hne])]
      exact ih hnd.2 hrest

theorem latestRow_mem {store : List (Int × JsonOf DelegationInfo)}
    {m : Int × JsonOf DelegationInfo} (h : latestRow store = some m) :
    m ∈ store := by
  induction store with
  | nil => cases h
  | cons e rest ih =>
    simp only [latestRow] at h
    cases hr : latestRow rest with
    | none =>
      rw [hr] at h
      simp only [Option.some.injEq] at h
      exact h ▸ List.mem_cons_self e rest
    | some m0 =>
      rw [hr] at h
      by_cases hlt : m0.1 < e.1
      · simp only [if_pos hlt, Option.some.injEq] at h
        exact h ▸ List.mem_cons_self e rest
      · simp only [if_neg hlt, Option.some.injEq] at h
        exact List.mem_cons_of_mem e (ih (h ▸ hr))

theorem latestRow_eq_max {store : List (Int × JsonOf DelegationInfo)}
    {hm : Int} {vm : JsonOf DelegationInfo}
    (hnd : (store.map Prod.fst).Nodup)
    (hmem : (hm, vm) ∈ store) (hmax : ∀ e ∈ store, e.1 ≤ hm) :
    latestRow store = some (hm, vm) := by
  induction store with
  | nil => cases hmem
  | cons e rest ih =>
    simp only [List.map_cons, List.nodup_cons] at hnd
    rcases List.mem_cons.mp hmem with he | hrest
    · simp only [latestRow]
      cases hr : latestRow rest with
      | none => rw [← he]
      | some m0 =>
        have hm0 : m0 ∈ rest := latestRow_mem hr
        have hle : m0.1 ≤ hm := hmax m0 (List.mem_cons_of_mem e hm0)
        have hne : m0.1 ≠ hm := by
          intro heq
          apply hnd.1
          have h1 : m0.1 ∈ rest.map Prod.fst := List.mem_map_of_mem Prod.fst hm0
          have h2 : e.1 = hm := by rw [← he]
          rw [h2, ← heq]
          exact h1
        have hlt : m0.1 < e.1 := by
          have h2 : e.1 = hm := by rw [← he]
          rw [h2]
          exact lt_of_le_of_ne hle hne
        show (if m0.1 < e.1 then some e else some m0) = some (hm, vm)
        rw [if_pos hlt, ← he]
    · have hres : latestRow rest = some (hm, vm) :=
        ih hnd.2 hrest (fun x hx => hmax x (List.mem_cons_of_mem e hx))
      have hele : e.1 ≤ hm := hmax e (List.mem_cons_self e rest)
      have hnlt : ¬ hm < e.1 := not_lt.mpr hele
      simp only [latestRow, hres, if_neg hnlt]

/-! ### Claim theorems -/

/-- C9: if the transaction table is empty, `statistics` returns
`code = 200` with `active_addresses = 0`, `total_txs = 0` and
`daily_txs = 0`: an empty table is a successful zero result, not an
error. -/
theorem statistics_empty_table (now : Int) :
    statisticsOnStore [] now =
      some (.Ok { code := 200, message := "",
                  data := some { active_addresses := 0, total_txs := 0,
                                 daily_txs := 0 } }) := by
  simpa using statisticsOnStore_eq [] now

/-- C1: a store failure other than `RowNotFound` on any of the three
sub-queries of `statistics` (simulated on one sub-query while the others
behave as the honest store) makes the whole request return
`code = 50001` with the untouched zero data — never a mixture of
successful fields and a failed sub-query; moreover any response at all
that is produced while some sub-query outcome was fatal carries
`code = 50001`. -/
theorem statistics_fatal_yields_50001 (txs : List Tx) :
    (∀ (q2 : QueryResult (List (JsonOf String))) (q3 : QueryResult Int),
      statistics .fatal q2 q3 =
        some (.Ok { code := 50001, message := "internal error, total txs.",
                    data := some zeroStatisticsData }))
    ∧ (∀ q3 : QueryResult Int,
      statistics (totalQuery txs) .fatal q3 =
        some (.Ok { code := 50001, message := "internal error, total addresses.",
                    data := some zeroStatisticsData }))
    ∧ (statistics (totalQuery txs) (addrQuery txs) .fatal =
        some (.Ok { code := 50001, message := "internal error, daily txs.",
                    data := some zeroStatisticsData }))
    ∧ (∀ (q1 : QueryResult Int) (q2 : QueryResult (List (JsonOf String)))
        (q3 : QueryResult Int) (r : ChainStatisticsRes),
        statistics q1 q2 q3 = some (.Ok r) →
        (q1 = .fatal ∨ q2 = .fatal ∨ q3 = .fatal) → r.code = 50001) := by
  refine ⟨fun q2 q3 => rfl, fun q3 => rfl, ?_, ?_⟩
  · simp [statistics, totalQuery, addrQuery, decodeAddrs_map_good]
  · intro q1 q2 q3 r heq hfat
    cases q1 with
    | rowNotFound => exact absurd heq (by simp [statistics])
    | fatal =>
      simp only [statistics, Option.some.injEq, ChainStatisticsResponse.Ok.injEq] at heq
      rw [← heq]
    | ok n =>
      cases q2 with
      | rowNotFound => exact absurd heq (by simp [statistics])
      | fatal =>
        simp only [statistics, Option.some.injEq, ChainStatisticsResponse.Ok.injEq] at heq
        rw [← heq]
      | ok vec =>
        cases hdec : decodeAddrs vec with
        | none => exact absurd heq (by simp [statistics, hdec])
        | some addrs =>
          cases q3 with
          | rowNotFound => exact absurd heq (by simp [statistics, hdec])
          | fatal =>
            simp only [statistics, hdec, Option.some.injEq,
              ChainStatisticsResponse.Ok.injEq] at heq
            rw [← heq]
          | ok m =>
            rcases hfat with h | h | h <;> exact absurd h (by simp)

/-- C1 witness: with a one-transaction store and a fatal address scan,
the request returns `code = 50001` with zero data, and the general
clause reports `code = 50001` on that response. -/
theorem statistics_fatal_yields_50001_witness :
    (statistics (totalQuery [{ pubkeys := ["addr1"], timestamp := 5 }]) .fatal (.ok 0) =
      some (.Ok { code := 50001, message := "internal error, total addresses.",
                  data := some zeroStatisticsData }))
    ∧ ({ code := 50001, message := "internal error, total addresses.",
         data := some zeroStatisticsData } : ChainStatisticsRes).code = 50001 :=
  ⟨(statistics_fatal_yields_50001 [{ pubkeys := ["addr1"], timestamp := 5 }]).2.1 (.ok 0),
   (statistics_fatal_yields_50001 [{ pubkeys := ["addr1"], timestamp := 5 }]).2.2.2
     (totalQuery [{ pubkeys := ["addr1"], timestamp := 5 }]) .fatal (.ok 0) _
     ((statistics_fatal_yields_50001 [{ pubkeys := ["addr1"], timestamp := 5 }]).2.1 (.ok 0))
     (Or.inr (Or.inl rfl))⟩

/-- C4: an internal-error response of `statistics` never carries
partially computed statistics fields: whenever a produced response has
`code = 50001`, its data payload is exactly the zero-initialised
`res_data`, so values computed by earlier sub-queries are discarded. -/
theorem statistics_error_discards_partial
    (q1 : QueryResult Int) (q2 : QueryResult (List (JsonOf String)))
    (q3 : QueryResult Int) (r : ChainStatisticsRes)
    (heq : statistics q1 q2 q3 = some (.Ok r)) (hcode : r.code = 50001) :
    r.data = some zeroStatisticsData := by
  cases q1 with
  | rowNotFound => exact absurd heq (by simp [statistics])
  | fatal =>
    simp only [statistics, Option.some.injEq, ChainStatisticsResponse.Ok.injEq] at heq
    rw [← heq]
  | ok n =>
    cases q2 with
    | rowNotFound => exact absurd heq (by simp [statistics])
    | fatal =>
      simp only [statistics, Option.some.injEq, ChainStatisticsResponse.Ok.injEq] at heq
      rw [← heq]
    | ok vec =>
      cases hdec : decodeAddrs vec with
      | none => exact absurd heq (by simp [statistics, hdec])
      | some addrs =>
        cases q3 with
        | rowNotFound => exact absurd heq (by simp [statistics, hdec])
        | fatal =>
          simp only [statistics, hdec, Option.some.injEq,
            ChainStatisticsResponse.Ok.injEq] at heq
          rw [← heq]
        | ok m =>
          simp only [statistics, hdec, Option.some.injEq,
            ChainStatisticsResponse.Ok.injEq] at heq
          rw [← heq] at hcode
          exact absurd hcode (by norm_num)

/-- C4 witness: after the total count succeeded with value 7, a fatal
address scan produces the internal-error response whose data is the
zero record, not a record carrying the computed 7. -/
theorem statistics_error_discards_partial_witness :
    (statistics (.ok 7) .fatal (.ok 3) =
      some (.Ok { code := 50001, message := "internal error, total addresses.",
                  data := some zeroStatisticsData }))
    ∧ ({ code := 50001, message := "internal error, total addresses.",
         data := some zeroStatisticsData } : ChainStatisticsRes).data =
        some zeroStatisticsData :=
  ⟨rfl, statistics_error_discards_partial (.ok 7) .fatal (.ok 3) _ rfl rfl⟩

/-- C10: every response value of the two endpoints is delivered with
transport-level HTTP status 200, including the internal-error outcomes:
the response enums declare status 200 as their only variant, so failure
is signalled only through the body's `code` field. -/
theorem responses_http_status_200 :
    (∀ resp : ChainStatisticsResponse, resp.httpStatus = 200)
    ∧ (∀ resp : StakingResponse, resp.httpStatus = 200)
    ∧ (∀ (q1 : QueryResult Int) (q2 : QueryResult (List (JsonOf String)))
        (q3 : QueryResult Int) (resp : ChainStatisticsResponse),
        statistics q1 q2 q3 = some resp → resp.httpStatus = 200)
    ∧ (∀ (q : QueryResult (JsonOf DelegationInfo)) (resp : StakingResponse),
        staking_info q = some resp → resp.httpStatus = 200) := by
  refine ⟨fun resp => ?_, fun resp => ?_, fun _ _ _ resp _ => ?_, fun _ resp _ => ?_⟩
  · cases resp; rfl
  · cases resp; rfl
  · cases resp; rfl
  · cases resp; rfl

/-- C10 witness: the internal-error response of `statistics` under a
fatal first sub-query still has HTTP status 200. -/
theorem responses_http_status_200_witness :
    (statistics .fatal .fatal .fatal =
      some (.Ok { code := 50001, message := "internal error, total txs.",
                  data := some zeroStatisticsData }))
    ∧ (ChainStatisticsResponse.Ok
        { code := 50001, message := "internal error, total txs.",
          data := some zeroStatisticsData }).httpStatus = 200 :=
  ⟨rfl, responses_http_status_200.2.2.1 .fatal .fatal .fatal _ rfl⟩

/-- C7: `active_addresses` is nonnegative and equals the number of
distinct address strings appearing in any transaction's transfer-output
public keys — each address counted once however often it appears — and
the count does not depend on the order in which records are scanned. -/
theorem statistics_active_addresses_distinct (txs txs2 : List Tx) (now now2 : Int)
    (hperm : txs.Perm txs2) :
    ∃ r r2 : StatisticsData,
      statisticsOnStore txs now =
        some (.Ok { code := 200, message := "", data := some r })
      ∧ statisticsOnStore txs2 now2 =
        some (.Ok { code := 200, message := "", data := some r2 })
      ∧ r.active_addresses = ((txs.flatMap Tx.pubkeys).toFinset.card : Int)
      ∧ 0 ≤ r.active_addresses
      ∧ r2.active_addresses = r.active_addresses := by
  refine ⟨_, _, statisticsOnStore_eq txs now, statisticsOnStore_eq txs2 now2,
    ?_, ?_, ?_⟩
  · rw [List.card_toFinset]
  · exact Int.natCast_nonneg _
  · have hp := List.toFinset_eq_of_perm _ _ (hperm.flatMap_right Tx.pubkeys)
    rw [← List.card_toFinset, ← List.card_toFinset, hp]

/-- Concrete two-transaction store for witnesses: addresses a, b, a, b. -/
def txsA : List Tx :=
  [{ pubkeys := ["a", "b", "a"], timestamp := 0 },
   { pubkeys := ["b"], timestamp := 5 }]

/-- `txsA` with its records scanned in the opposite order. -/
def txsB : List Tx :=
  [{ pubkeys := ["b"], timestamp := 5 },
   { pubkeys := ["a", "b", "a"], timestamp := 0 }]

/-- C7 witness: on a concrete store with duplicated addresses the count
is the distinct count and is unchanged by reordering the records. -/
theorem statistics_active_addresses_distinct_witness :
    txsA.Perm txsB
    ∧ ∃ r r2 : StatisticsData,
      statisticsOnStore txsA 100 =
        some (.Ok { code := 200, message := "", data := some r })
      ∧ statisticsOnStore txsB 42 =
        some (.Ok { code := 200, message := "", data := some r2 })
      ∧ r.active_addresses = ((txsA.flatMap Tx.pubkeys).toFinset.card : Int)
      ∧ 0 ≤ r.active_addresses
      ∧ r2.active_addresses = r.active_addresses :=
  ⟨by decide, statistics_active_addresses_distinct txsA txsB 100 42 (by decide)⟩

/-- C8: `daily_txs` counts exactly the transactions whose timestamp is
at least `now - 86400`, and the boundary timestamp `now - 86400` itself
satisfies the filter, so it is included in the count. -/
theorem statistics_daily_window (txs : List Tx) (now : Int) :
    ∃ r : StatisticsData,
      statisticsOnStore txs now =
        some (.Ok { code := 200, message := "", data := some r })
      ∧ r.daily_txs = ((txs.countP fun tx => now - 86400 ≤ tx.timestamp) : Int)
      ∧ ∀ tx : Tx, tx.timestamp = now - 86400 →
          (decide (now - 86400 ≤ tx.timestamp)) = true := by
  refine ⟨_, statisticsOnStore_eq txs now, ?_, ?_⟩
  · rw [show (3600 * 24 : Int) = 86400 by norm_num,
      List.countP_eq_length_filter]
  · intro tx htx
    simp [htx]

/-- C2: when the snapshot query matches no rows — an explicit height
with no row in the table, the empty table with no height given, or the
raw `RowNotFound` outcome — `staking_info` answers `code = 200` with the
zero-valued `StakingData`, never an error code. -/
theorem staking_info_no_rows_is_200 :
    (∀ (store : List (Int × JsonOf DelegationInfo)) (h : Int),
      (∀ e ∈ store, e.1 ≠ h) →
      stakingInfoOnStore store (some h) =
        some (.Ok { code := 200, message := "",
                    data := some { block_reward := 0, stake_ratio := 0, apy := 0,
                                   active_validators := [] } }))
    ∧ (stakingInfoOnStore [] none =
        some (.Ok { code := 200, message := "",
                    data := some { block_reward := 0, stake_ratio := 0, apy := 0,
                                   active_validators := [] } }))
    ∧ (staking_info .rowNotFound =
        some (.Ok { code := 200, message := "",
                    data := some { block_reward := 0, stake_ratio := 0, apy := 0,
                                   active_validators := [] } })) := by
  refine ⟨?_, rfl, rfl⟩
  intro store h hno
  have hfind : store.find? (fun e => e.1 == h) = none :=
    List.find?_eq_none.mpr (fun x hx => by simpa using hno x hx)
  simp [stakingInfoOnStore, delegationQuery, hfind, staking_info,
    StakingData.default]

/-- C2 witness: a one-row table queried at a height that is not stored
answers the zero-valued success response. -/
theorem staking_info_no_rows_is_200_witness :
    (∀ e ∈ ([(5, JsonOf.bad)] : List (Int × JsonOf DelegationInfo)), e.1 ≠ 7)
    ∧ stakingInfoOnStore [(5, JsonOf.bad)] (some 7) =
        some (.Ok { code := 200, message := "",
                    data := some { block_reward := 0, stake_ratio := 0, apy := 0,
                                   active_validators := [] } }) :=
  ⟨by decide, staking_info_no_rows_is_200.1 [(5, JsonOf.bad)] 7 (by decide)⟩

/-- C6: with the delegations table keyed by height, an explicit height
parameter resolves to the snapshot at exactly that height, and an
omitted height resolves to the snapshot at the maximum stored height. -/
theorem staking_info_height_resolution
    (store : List (Int × JsonOf DelegationInfo)) (h hmax : Int)
    (v vmax : JsonOf DelegationInfo)
    (hnd : (store.map Prod.fst).Nodup) :
    ((h, v) ∈ store →
      stakingInfoOnStore store (some h) = staking_info (.ok v))
    ∧ ((hmax, vmax) ∈ store → (∀ e ∈ store, e.1 ≤ hmax) →
      stakingInfoOnStore store none = staking_info (.ok vmax)) := by
  constructor
  · intro hmem
    simp [stakingInfoOnStore, delegationQuery, find?_key_eq hnd hmem]
  · intro hmem hm
    simp [stakingInfoOnStore, delegationQuery, latestRow_eq_max hnd hmem hm]

/-- The delegation snapshot of the spec's worked example: records
`{d1: {rwd_amount: 10, delegations: {x: 100}},
  d2: {rwd_amount: 5, delegations: {y: 200, z: 50}}}`. -/
def infoA : DelegationInfo :=
  { validator_addr_map := [("v1", "addrV1")],
    global_delegation_records_map :=
      [("d1", { rwd_amount := 10, delegations := [("x", 100)] }),
       ("d2", { rwd_amount := 5, delegations := [("y", 200), ("z", 50)] })],
    return_rate := { value := 3 / 100 } }

/-- An empty snapshot stored at a lower height. -/
def infoB : DelegationInfo :=
  { validator_addr_map := [], global_delegation_records_map := [],
    return_rate := { value := 0 } }

/-- A two-row delegations table: `infoB` at height 1, `infoA` at
height 2. -/
def storeAB : List (Int × JsonOf DelegationInfo) :=
  [(1, .good infoB), (2, .good infoA)]

/-- C6 witness: on the concrete two-row table, height 1 resolves to the
snapshot at height 1 (not the latest), and an omitted height resolves to
the snapshot at the maximum height 2. -/
theorem staking_info_height_resolution_witness :
    ((storeAB.map Prod.fst).Nodup ∧ ((1 : Int), JsonOf.good infoB) ∈ storeAB)
    ∧ stakingInfoOnStore storeAB (some 1) = staking_info (.ok (.good infoB))
    ∧ stakingInfoOnStore storeAB none = staking_info (.ok (.good infoA)) :=
  ⟨⟨by decide, List.mem_cons_self _ _⟩,
   (staking_info_height_resolution storeAB 1 2 (.good infoB) (.good infoA)
     (by decide)).1 (List.mem_cons_self _ _),
   (staking_info_height_resolution storeAB 1 2 (.good infoB) (.good infoA)
     (by decide)).2 (List.mem_cons_of_mem _ (List.mem_cons_self _ _))
     (by decide)⟩

/-- C3 counterexample: a stored payload that is present but does not
decode to the expected shape does not surface a `code = 50001` response;
the operation terminates without producing any response (the source
panics at `.unwrap()`), in both `statistics` and `staking_info`. -/
theorem decode_failure_no_50001 :
    statistics (.ok 0) (.ok [JsonOf.bad]) (.ok 0) = none
    ∧ staking_info (.ok JsonOf.bad) = none :=
  ⟨rfl, rfl⟩

/-- C3 (amended): a present-but-undecodable stored payload — an address
fragment in `statistics`, or the delegation info payload in
`staking_info` — makes the operation terminate without producing any
response (panic), rather than returning an internal-error response; the
failure is not silently masked as a success. -/
theorem decode_failure_terminates_without_response
    (n : Int) (vec : List (JsonOf String)) (q3 : QueryResult Int)
    (hbad : JsonOf.bad ∈ vec) (v : JsonOf DelegationInfo)
    (hv : from_value v = none) :
    statistics (.ok n) (.ok vec) q3 = none
    ∧ staking_info (.ok v) = none := by
  constructor
  · simp [statistics, decodeAddrs_of_bad hbad]
  · cases v with
    | good a => simp [from_value] at hv
    | bad => rfl

/-- C3 witness: with one good and one undecodable fragment, and an
undecodable delegation payload, both operations produce no response. -/
theorem decode_failure_terminates_without_response_witness :
    (JsonOf.bad ∈ [JsonOf.good "a", JsonOf.bad])
    ∧ from_value (JsonOf.bad : JsonOf DelegationInfo) = none
    ∧ (statistics (.ok 0) (.ok [JsonOf.good "a", JsonOf.bad]) (.ok 1) = none
       ∧ staking_info (.ok (JsonOf.bad : JsonOf DelegationInfo)) = none) :=
  ⟨by decide, rfl,
   decode_failure_terminates_without_response 0 [JsonOf.good "a", JsonOf.bad]
     (.ok 1) (by decide) JsonOf.bad rfl⟩

/-- A decoded snapshot whose `rwd_amount` values sum to `2 ^ 64`, so the
u64 accumulation wraps to 0. -/
def overflowInfo : DelegationInfo :=
  { validator_addr_map := [],
    global_delegation_records_map :=
      [("a", { rwd_amount := 2 ^ 63, delegations := [] }),
       ("b", { rwd_amount := 2 ^ 63, delegations := [] })],
    return_rate := { value := 0 } }

/-- C5 counterexample: for the successfully decoded snapshot
`overflowInfo` the claim fails: the sum of `rwd_amount` over all entries
is `2 ^ 64`, but the returned `block_reward` is 0, because the u64
accumulation wraps. -/
theorem staking_info_reward_overflow :
    staking_info (.ok (.good overflowInfo)) =
      some (.Ok { code := 200, message := "",
                  data := some { block_reward := 0,
                                 stake_ratio := ((0 : Nat) : ℚ) / 21420000000000000,
                                 apy := 0,
                                 active_validators := [] } })
    ∧ (overflowInfo.global_delegation_records_map.map fun p => p.2.rwd_amount).sum
        = 2 ^ 64
    ∧ (0 : Nat) ≠ 2 ^ 64 :=
  ⟨rfl, by decide, by decide⟩

/-- C5 (amended): for every successfully decoded snapshot whose exact
reward and stake sums fit in 64 bits (so no u64 wrap occurs — the claim
as stated fails on wrapping sums, see the counterexample) and whose
validator map has unique keys, `staking_info` returns `block_reward`
equal to the sum of `rwd_amount` over every entry of
`global_delegation_records_map`, `stake_ratio` equal to the sum of every
staked amount divided by 21420000000000000, `apy` equal to
`return_rate.value` unmodified, and `active_validators` exactly the key
list of `validator_addr_map`; the key set, the reward and the total
stake are independent of mapping iteration order. -/
theorem staking_info_snapshot_aggregation (info : DelegationInfo)
    (hr : (info.global_delegation_records_map.map fun p => p.2.rwd_amount).sum
        < 2 ^ 64)
    (hs : (info.global_delegation_records_map.map fun p =>
            (p.2.delegations.map Prod.snd).sum).sum < 2 ^ 64)
    (hnd : (info.validator_addr_map.map Prod.fst).Nodup) :
    (staking_info (.ok (.good info)) =
      some (.Ok { code := 200, message := "",
                  data := some
                    { block_reward :=
                        (info.global_delegation_records_map.map
                          fun p => p.2.rwd_amount).sum,
                      stake_ratio :=
                        (((info.global_delegation_records_map.map fun p =>
                            (p.2.delegations.map Prod.snd).sum).sum : Nat) : ℚ)
                          / 21420000000000000,
                      apy := info.return_rate.value,
                      active_validators :=
                        info.validator_addr_map.map Prod.fst } }))
    ∧ (computeActiveValidators info.validator_addr_map).toFinset
        = (info.validator_addr_map.map Prod.fst).toFinset
    ∧ (computeActiveValidators info.validator_addr_map).Nodup
    ∧ (∀ info2 : DelegationInfo,
        info2.validator_addr_map.Perm info.validator_addr_map →
        (info2.global_delegation_records_map.map fun p => p.2.rwd_amount).Perm
          (info.global_delegation_records_map.map fun p => p.2.rwd_amount) →
        (info2.global_delegation_records_map.map fun p =>
            (p.2.delegations.map Prod.snd).sum).Perm
          (info.global_delegation_records_map.map fun p =>
            (p.2.delegations.map Prod.snd).sum) →
        computeReward info2.global_delegation_records_map
            = computeReward info.global_delegation_records_map
        ∧ computeTotalStake info2.global_delegation_records_map
            = computeTotalStake info.global_delegation_records_map
        ∧ (computeActiveValidators info2.validator_addr_map).toFinset
            = (computeActiveValidators info.validator_addr_map).toFinset) := by
  refine ⟨?_, rfl, hnd, ?_⟩
  · simp only [staking_info, from_value, computeActiveValidators]
    rw [computeReward_eq, computeTotalStake_eq, Nat.mod_eq_of_lt hr,
      Nat.mod_eq_of_lt hs]
  · intro info2 hvp hrp hsp
    refine ⟨?_, ?_, ?_⟩
    · rw [computeReward_eq, computeReward_eq, hrp.sum_eq]
    · rw [computeTotalStake_eq, computeTotalStake_eq, hsp.sum_eq]
    · exact List.toFinset_eq_of_perm _ _ (hvp.map Prod.fst)

/-- C5 witness: on the spec's worked example the response carries
`block_reward = 15`, `stake_ratio = 350 / 21420000000000000`, the
snapshot's own rate as `apy`, and the single validator key. -/
theorem staking_info_snapshot_aggregation_witness :
    ((infoA.global_delegation_records_map.map fun p => p.2.rwd_amount).sum < 2 ^ 64)
    ∧ ((infoA.global_delegation_records_map.map fun p =>
         (p.2.delegations.map Prod.snd).sum).sum < 2 ^ 64)
    ∧ (infoA.validator_addr_map.map Prod.fst).Nodup
    ∧ staking_info (.ok (.good infoA)) =
        some (.Ok { code := 200, message := "",
                    data := some
                      { block_reward := 15,
                        stake_ratio := ((350 : Nat) : ℚ) / 21420000000000000,
                        apy := 3 / 100,
                        active_validators := ["v1"] } }) :=
  ⟨by decide, by decide, by decide,
   (staking_info_snapshot_aggregation infoA (by decide) (by decide) (by decide)).1⟩
